import Mathlib

/-!
Verification of `photo_transform.py` (PixelPie photo-transformation module).

Shallow embedding: the module's functions are translated to total Lean
functions.  External effects (HTTP requests, the Replicate client, PIL,
libmagic, the clock) are supplied through explicit oracle records, so that
each run of the embedded code is a deterministic function of its inputs and
of the oracle.  Raised exceptions are modelled with `Except String`;
dictionaries are association lists; I/O steps performed by `generate_image`
are recorded in an event trace.  The unbounded polling loop is given fuel:
a result of `none` means the Python loop has not yet returned within that
fuel, every caught exception yields `some` failure dictionary.
-/

set_option autoImplicit false

namespace PhotoTransform

/-- Raw file bytes, one `Nat` per byte. -/
abbrev Bytes := List Nat

/-- A JSON object body, modelled after parsing as an association list of
its string-valued fields (the only fields the code reads, `url` and `id`,
are strings). -/
abbrev JsonObj := List (String × String)

/-- First-match lookup in an association list keyed by strings, like
Python's `dict[k]` / `k in dict` on these configuration dictionaries. -/
def dlookup {α : Type} (d : List (String × α)) (k : String) : Option α :=
  (d.find? (fun p => p.1 == k)).map (fun p => p.2)

/-- The HTTP response observed by `upload_image_to_replicate` for its POST
to `https://api.replicate.com/v1/files`: status code, parsed JSON body and
raw text body. -/
structure UploadResponse where
  status : Nat
  json : JsonObj
  text : String

/-- Embeds `upload_image_to_replicate` (src/photo_transform.py:32-69): on
HTTP 201 with a `url` field in the JSON body it returns that metadata URL;
on a 201 body without `url` or on any other status it raises.  The
`try/except` there logs and re-raises, so the exception is propagated
unchanged. -/
def upload_image_to_replicate (resp : UploadResponse) : Except String String :=
  if resp.status = 201 then
    match dlookup resp.json "url" with
    | some metadata_url => Except.ok metadata_url
    | none => Except.error "Ответ не содержит URL"
  else
    Except.error ("Ошибка загрузки на Replicate: HTTP " ++ toString resp.status ++ " - " ++ resp.text)

/-- The HTTP response observed by `download_image` when GETting the
metadata URL: status, the `Content-Type` header (empty string when the
header is absent, after `headers.get('Content-Type', '')`), parsed JSON
body and raw text body. -/
structure MetaResponse where
  status : Nat
  contentType : String
  json : JsonObj
  text : String

/-- Python's `str.startswith`, character by character.  (Lean's own
`String.startsWith` is byte-positional and does not reduce under `decide`,
so the embedding uses this executable equivalent.) -/
def strStartsWith (s pre : String) : Bool :=
  pre.data.isPrefixOf s.data

/-- What `replicate.Client.files.get` hands back: either real binary data
or a value of some other Python type (whose type name is all the code
looks at). -/
inductive FileContent where
  | bytes (b : Bytes)
  | other (tyName : String)

/-- Embeds `download_image` (src/photo_transform.py:71-132).
Step 1: the metadata GET must answer HTTP 200 with a Content-Type starting
with `application/json` and a JSON body containing `id`.  Step 2: the file
bytes are obtained from `client.files.get` on that id (oracle `filesGet`),
must be a `bytes` instance, and their libmagic MIME type (oracle `mimeOf`,
embedding `magic.Magic(mime=True).from_buffer`) must start with `image/`.
Every other outcome raises; the `except` clause logs and re-raises. -/
def download_image (resp : MetaResponse) (filesGet : String → FileContent)
    (mimeOf : Bytes → String) : Except String Bytes :=
  if resp.status = 200 then
    if strStartsWith resp.contentType "application/json" then
      match dlookup resp.json "id" with
      | some file_id =>
        match filesGet file_id with
        | FileContent.bytes file_content =>
          if strStartsWith (mimeOf file_content) "image/" then
            Except.ok file_content
          else
            Except.error ("Скачанные данные не являются изображением: MIME-тип " ++ mimeOf file_content)
        | FileContent.other tyName =>
          Except.error ("replicate.Client.files.get вернул не бинарные данные: тип " ++ tyName)
      | none => Except.error "Метаданные не содержат id файла"
    else
      Except.error ("Ожидался JSON в метаданных, получен Content-Type: " ++ resp.contentType)
  else
    Except.error ("Ошибка получения метаданных: HTTP " ++ toString resp.status ++ " - " ++ resp.text)

/-- One style preset of `PhotoTransformGenerator.styles`. -/
structure StyleConfig where
  name : String
  description : String
  prompt_template : String
  model : String
  model_type : String
  aspect_ratio : String

/-- The mutable state of a `PhotoTransformGenerator` instance: its API key
and the four configuration dictionaries set up in `__init__`
(src/photo_transform.py:137-223).  The `replicate.Client` and the
`REPLICATE_API_TOKEN` environment variable are part of the effect oracle,
not of this value. -/
structure Generator where
  api_key : String
  styles : List (String × StyleConfig)
  aspect_ratios : List (String × String)
  aspect_ratio_map : List (String × String)
  resolutions : List (String × String)

/-- The six style presets installed by `__init__`
(src/photo_transform.py:148-197), verbatim. -/
def defaultStyles : List (String × StyleConfig) :=
  [("photoshop",
    { name := "🤍 Фотошоп"
      description := "Улучшение качества без изменений"
      prompt_template := "Professional portrait photo of @person, enhanced quality, flawless high-definition smooth beautiful skin, perfect even skin tone, flawless complexion, razor-sharp focus on eyes, detailed ultra-realistic eyes, clean background, natural colors, perfect lighting, photorealistic, ultra-high resolution, 16K, masterpiece, best quality, hyper-detailed, no artifacts, sharp details everywhere, crystal-clear sharpness, flawless 32K resolution"
      model := "runwayml/gen4-image"
      model_type := "gen4"
      aspect_ratio := "3:4" }),
   ("art",
    { name := "🎨 AI Art"
      description := "Иллюстрация в авторском стиле"
      prompt_template := "Digital art illustration of @person, artistic style, flawless high-definition smooth beautiful skin, perfect even skin tone, flawless complexion, razor-sharp focus on eyes, detailed ultra-realistic eyes, pastel colors, creative portrait, Pinterest aesthetic, beautiful lighting, stylized, ultra-high resolution, 16K, masterpiece, best quality, hyper-detailed, no artifacts, sharp details everywhere, crystal-clear sharpness, flawless 32K resolution"
      model := "runwayml/gen4-image"
      model_type := "gen4"
      aspect_ratio := "3:4" }),
   ("cinema",
    { name := "🎬 Кино"
      description := "Кадр из художественного фильма"
      prompt_template := "Cinematic portrait of @person, movie scene, flawless high-definition smooth beautiful skin, perfect even skin tone, flawless complexion, razor-sharp focus on eyes, detailed ultra-realistic eyes, dramatic lighting, film grain, atmospheric colors, professional cinematography, ultra-high resolution, 16K, masterpiece, best quality, hyper-detailed, no artifacts, sharp details everywhere, crystal-clear sharpness, flawless 32K resolution"
      model := "runwayml/gen4-image"
      model_type := "gen4"
      aspect_ratio := "3:4" }),
   ("portrait",
    { name := "🧠 Портрет"
      description := "Глубокий психологический образ"
      prompt_template := "Deep psychological portrait of @person, soft shadows, face focus, flawless high-definition smooth beautiful skin, perfect even skin tone, flawless complexion, razor-sharp focus on eyes, detailed ultra-realistic eyes, character photography, soulful expression, professional photographer style, ultra-high resolution, 16K, masterpiece, best quality, hyper-detailed, no artifacts, sharp details everywhere, crystal-clear sharpness, flawless 32K resolution"
      model := "runwayml/gen4-image"
      model_type := "gen4"
      aspect_ratio := "3:4" }),
   ("fantasy",
    { name := "⚡ Фантастика"
      description := "Неон, sci-fi, визуальный драйв"
      prompt_template := "Cyberpunk portrait of @person, neon lights, sci-fi style, flawless high-definition smooth beautiful skin, perfect even skin tone, flawless complexion, razor-sharp focus on eyes, detailed ultra-realistic eyes, futuristic, glitch effects, dramatic lighting, cosmic atmosphere, ultra-high resolution, 16K, masterpiece, best quality, hyper-detailed, no artifacts, sharp details everywhere, crystal-clear sharpness, flawless 32K resolution"
      model := "runwayml/gen4-image"
      model_type := "gen4"
      aspect_ratio := "3:4" }),
   ("lego",
    { name := "🧱 LEGO"
      description := "Превращение в LEGO минифигурку"
      prompt_template := "A hyper-detailed LEGO minifigure of @person, ultra-realistic LEGO style, razor-sharp focus on eyes, detailed eyes, 4K resolution, vibrant colors, precise blocky textures, LEGO hair with stud details, glossy LEGO pieces, visible brick seams, LEGO cityscape background, cinematic lighting, plastic sheen, blocky toy-like nature, perfect LEGO brick alignment, stud patterns, reflective plastic surfaces, ultra-high resolution, 16K, masterpiece, best quality, no artifacts, sharp details everywhere, crystal-clear sharpness, flawless 32K resolution"
      model := "runwayml/gen4-image"
      model_type := "gen4"
      aspect_ratio := "3:4" })]

/-- `PhotoTransformGenerator.__init__` (src/photo_transform.py:137-223):
stores the API key and installs the fixed configuration dictionaries. -/
def Generator.init (replicate_api_key : String) : Generator :=
  { api_key := replicate_api_key
    styles := defaultStyles
    aspect_ratios := [("9:16", "9:16"), ("4:3", "4:3"), ("3:4", "3:4"), ("1:1", "1:1"), ("16:9", "16:9")]
    aspect_ratio_map := [("9", "9:16"), ("16", "16:9"), ("4", "4:3"), ("3", "3:4"), ("1", "1:1")]
    resolutions := [("720p", "720p")] }

/-- The normalization step of `generate_image`
(src/photo_transform.py:246-248): a shorthand found in
`aspect_ratio_map` is replaced by its full form, anything else is kept. -/
def normalizeAspect (g : Generator) (aspect_ratio : String) : String :=
  match dlookup g.aspect_ratio_map aspect_ratio with
  | some full => full
  | none => aspect_ratio

/-- The `input_params` dictionary built for
`client.predictions.create` (src/photo_transform.py:277-283). -/
structure PredInput where
  prompt : String
  aspect_ratio : String
  reference_tags : List String
  reference_images : List String
  output_resolution : String
deriving DecidableEq

/-- A Replicate prediction as the code reads it: `id`, `status`, `output`
(the code coerces a non-string output with `str(...)`, so a string
suffices) and the optional `error` attribute. -/
structure Prediction where
  id : String
  status : String
  output : String
  error : Option String
deriving DecidableEq

/-- A value stored in the result dictionary of `generate_image`. -/
inductive RVal where
  | bool (b : Bool)
  | str (s : String)
deriving DecidableEq

/-- The result dictionary of `generate_image`. -/
abbrev RDict := List (String × RVal)

/-- The failure dictionary of `generate_image`
(src/photo_transform.py:333-338 and 342-347). -/
def failDict (err style now : String) : RDict :=
  [("success", RVal.bool false), ("error", RVal.str err),
   ("style", RVal.str style), ("timestamp", RVal.str now)]

/-- The success dictionary of `generate_image`
(src/photo_transform.py:318-325). -/
def successDict (result_url style style_name now prediction_id : String) : RDict :=
  [("success", RVal.bool true), ("result_url", RVal.str result_url),
   ("style", RVal.str style), ("style_name", RVal.str style_name),
   ("timestamp", RVal.str now), ("prediction_id", RVal.str prediction_id)]

/-- An externally visible I/O step of `generate_image`: the metadata
download of the source image, the re-upload of the processed bytes, the
submission of a generation job, and one poll (`predictions.get`). -/
inductive Event where
  | download (url : String)
  | upload (data : Bytes) (filename : String)
  | create (model : String) (input : PredInput)
  | poll (id : String)
deriving DecidableEq

/-- Is this event a job submission (`predictions.create`)? -/
def isCreateEvent : Event → Bool
  | Event.create _ _ => true
  | _ => false

/-- An opened PIL image (`Image.open`); opaque to the code beyond
re-encoding. -/
structure PILImage where
  raw : Bytes
deriving DecidableEq

/-- The effect oracle for one call of `generate_image`: the response of
every external request it may issue, plus PIL, libmagic and the clock.
`httpGet` answers the metadata GET of `download_image`; `filesGet` is
`client.files.get`; `pilOpen` is `PIL.Image.open` (raising on garbage);
`reencodeJpeg` is `img.convert('RGB').save(buffer, format="JPEG",
quality=95)` followed by reading the buffer back; `postFile` answers the
POST of `upload_image_to_replicate` for given bytes and filename;
`create` is `client.predictions.create` for a model and input;
`getPred` is `client.predictions.get` at the n-th poll iteration;
`now` is `datetime.now().isoformat()`. -/
structure GenEnv where
  httpGet : String → MetaResponse
  filesGet : String → FileContent
  mimeOf : Bytes → String
  pilOpen : Bytes → Except String PILImage
  reencodeJpeg : PILImage → Bytes
  postFile : Bytes → String → UploadResponse
  create : String → PredInput → Except String Prediction
  getPred : Nat → Except String Prediction
  now : String

/-- The statuses on which the polling loop of `generate_image` stops
(src/photo_transform.py:297). -/
def terminalStatuses : List String := ["succeeded", "failed", "canceled"]

/-- The polling loop (src/photo_transform.py:297-303): while the status is
not terminal, sleep and re-fetch the prediction.  `fuel` bounds the number
of re-fetches; `none` means the loop is still running after `fuel`
re-fetches.  A fetch may raise (`Except.error`), which the surrounding
`try` turns into a failure dictionary.  Each re-fetch of a prediction is
recorded as a `poll` event carrying the id being fetched. -/
def pollLoop (getPred : Nat → Except String Prediction) :
    Nat → Nat → Prediction → Option (Except String Prediction × List Event)
  | 0, _, p =>
    if p.status ∈ terminalStatuses then some (Except.ok p, []) else none
  | fuel + 1, k, p =>
    if p.status ∈ terminalStatuses then some (Except.ok p, [])
    else
      match getPred k with
      | Except.error e => some (Except.error e, [Event.poll p.id])
      | Except.ok p2 =>
        match pollLoop getPred fuel (k + 1) p2 with
        | none => none
        | some (res, tr) => some (res, Event.poll p.id :: tr)

/-- `PhotoTransformGenerator.generate_image` (src/photo_transform.py:225-347).
Deterministic given the oracle `env`; returns the result dictionary paired
with the trace of I/O events, or `none` when the polling loop exceeds the
fuel.  All raised exceptions are caught by the outer `try/except` and
turned into a failure dictionary. -/
def generate_image (g : Generator) (env : GenEnv) (fuel : Nat)
    (image_url style : String) (user_id : Int)
    (aspect_ratio : String) (resolution : String) : Option (RDict × List Event) :=
  match dlookup g.styles style with
  | none => some (failDict ("Неизвестный стиль: " ++ style) style env.now, [])
  | some style_config =>
    let ar := normalizeAspect g aspect_ratio
    if (dlookup g.aspect_ratios ar).isNone then
      some (failDict ("Неподдерживаемое соотношение сторон: " ++ ar) style env.now, [])
    else if (dlookup g.resolutions resolution).isNone then
      some (failDict ("Неподдерживаемое разрешение: " ++ resolution) style env.now, [])
    else
      match download_image (env.httpGet image_url) env.filesGet env.mimeOf with
      | Except.error e => some (failDict e style env.now, [Event.download image_url])
      | Except.ok image_bytes =>
        match env.pilOpen image_bytes with
        | Except.error pil_err =>
          some (failDict ("Невозможно открыть изображение: " ++ pil_err) style env.now,
            [Event.download image_url])
        | Except.ok img =>
          let processed_image_bytes := env.reencodeJpeg img
          match upload_image_to_replicate (env.postFile processed_image_bytes "processed.jpg") with
          | Except.error e =>
            some (failDict e style env.now,
              [Event.download image_url, Event.upload processed_image_bytes "processed.jpg"])
          | Except.ok processed_url =>
            let input_params : PredInput :=
              { prompt := style_config.prompt_template
                aspect_ratio := ar
                reference_tags := ["person"]
                reference_images := [processed_url]
                output_resolution := resolution }
            match env.create style_config.model input_params with
            | Except.error e =>
              some (failDict e style env.now,
                [Event.download image_url, Event.upload processed_image_bytes "processed.jpg",
                 Event.create style_config.model input_params])
            | Except.ok prediction =>
              match pollLoop env.getPred fuel 0 prediction with
              | none => none
              | some (pres, pollTr) =>
                let baseTr := [Event.download image_url,
                  Event.upload processed_image_bytes "processed.jpg",
                  Event.create style_config.model input_params]
                match pres with
                | Except.error e => some (failDict e style env.now, baseTr ++ pollTr)
                | Except.ok p =>
                  if p.status == "succeeded" then
                    some (successDict p.output style style_config.name env.now p.id,
                      baseTr ++ pollTr)
                  else
                    let error_msg := "Генерация завершилась со статусом: " ++ p.status ++
                      (match p.error with
                       | some err => " - " ++ err
                       | none => "")
                    some (failDict error_msg style env.now, baseTr ++ pollTr)

/-- One inline button: display text and callback payload. -/
structure Button where
  text : String
  callback_data : String
deriving DecidableEq

/-- The cancel button appended as the last row of every keyboard. -/
def cancelButton : Button :=
  { text := "❌ Отменить", callback_data := "transform_cancel" }

/-- One iteration of the row-building loop shared by the keyboard
helpers: append the new button to the current row and flush the row into
the keyboard once it holds `rowLen` buttons. -/
def keyboardStep (rowLen : Nat) (acc : List (List Button) × List Button)
    (b : Button) : List (List Button) × List Button :=
  let row := acc.2 ++ [b]
  if row.length = rowLen then (acc.1 ++ [row], []) else (acc.1, row)

/-- Flush a leftover partial row (`if row: keyboard.append(row)`) and add
the cancel row. -/
def keyboardFinish (acc : List (List Button) × List Button) : List (List Button) :=
  (if acc.2.isEmpty then acc.1 else acc.1 ++ [acc.2]) ++ [[cancelButton]]

/-- `get_style_keyboard` (src/photo_transform.py:349-372): two style
buttons per row, then the cancel row.  The method reads `self.styles` and
performs no I/O and no mutation, so it is embedded as a pure function of
the generator value. -/
def get_style_keyboard (g : Generator) : List (List Button) :=
  keyboardFinish (g.styles.foldl
    (fun acc p => keyboardStep 2 acc
      { text := p.2.name, callback_data := "transform_style:" ++ p.1 })
    ([], []))

/-- `get_style_info` (src/photo_transform.py:374-384). -/
def get_style_info (g : Generator) (style : String) : Option StyleConfig :=
  dlookup g.styles style

/-- The literal description dictionary local to `get_style_description`
(src/photo_transform.py:396-441), verbatim. -/
def styleDescriptions : List (String × String) :=
  [("photoshop", "🤍 Фотошоп / Улучшение\n\nТы — как есть, но в идеальном свете.\nФон вычищен, кожа выглядит свежо, цвета — естественные.\nКак будто твое фото ретушировал профи. Без лишних фильтров.\n\n📌 Подходит для: аватарки, резюме, профиля.\n⚡ PixelPie AI улучшит качество с помощью нейросети"),
   ("art", "🎨 AI Art / Иллюстрация\n\nФото превращается в арт.\nЛинии, свет, пастель или стиль digital-иллюстраций — и ты выглядишь как персонаж книги или Pinterest-постера.\n\n📌 Подходит для: творчества, сторис, эстетичного контента.\n🎨 PixelPie AI создаст уникальную иллюстрацию"),
   ("cinema", "🎬 Кино / Cinematic\n\nТы в кадре — будто это сцена из фильма.\nАтмосферные цвета, направленный свет и немного драмы.\n\n📌 Подходит для: ярких образов, вау-эффекта, постов с настроением.\n🎥 PixelPie AI применит кинематографическую обработку"),
   ("portrait", "🧠 Портрет / Психологический\n\nГлубокий взгляд, мягкие тени, фокус на лице.\nЭффект, как будто ты снят фотографом, который умеет показать характер.\n\n📌 Подходит для: спокойных аватарок, презентаций, контента с душой.\n📸 PixelPie AI создаст профессиональный портрет"),
   ("fantasy", "⚡ Фантастика / Neon-Cyber\n\nТы в другом времени, в другой вселенной.\nГлитчи, неон, драматичный свет — визуальный экшн прямо из sci-fi трейлера.\n\n📌 Подходит для: аватарок, сторис, ярких постов.\n🚀 PixelPie AI перенесет тебя в будущее"),
   ("lego", "🧱 LEGO / Минифигурка\n\nПревращение в детализированную LEGO минифигурку.\nЯркие цвета, блочные текстуры, культовый стиль конструктора.\nКаждая деталь проработана до мельчайших кубиков!\n\n📌 Подходит для: веселых аватарок, подарков, креативного контента.\n🧱 PixelPie AI создаст твою уникальную LEGO-версию")]

/-- `get_style_description` (src/photo_transform.py:386-442): a lookup in
a function-local constant dictionary with the fallback
`"Описание недоступно"`; it does not read `self` at all. -/
def get_style_description (g : Generator) (style : String) : String :=
  match dlookup styleDescriptions style with
  | some d => d
  | none => "Описание недоступно"

/-- `get_aspect_ratio_keyboard` (src/photo_transform.py:444-470): three
ratio buttons per row over `self.aspect_ratios`, then the cancel row. -/
def get_aspect_ratio_keyboard (g : Generator) (style_key : String) : List (List Button) :=
  keyboardFinish (g.aspect_ratios.foldl
    (fun acc p => keyboardStep 3 acc
      { text := p.1, callback_data := "transform_ratio:" ++ style_key ++ ":" ++ p.1 })
    ([], []))

/-- `get_resolution_keyboard` (src/photo_transform.py:472-496): all
resolution buttons in one row (the loop never flushes), then the cancel
row. -/
def get_resolution_keyboard (g : Generator) (style_key aspect_ratio : String) :
    List (List Button) :=
  let row := g.resolutions.foldl
    (fun row p => row ++
      [{ text := p.1,
         callback_data := "transform_resolution:" ++ style_key ++ ":" ++ aspect_ratio ++ ":" ++ p.1 }])
    []
  (if row.isEmpty then [] else [row]) ++ [[cancelButton]]

/-- `get_aspect_ratio_description` (src/photo_transform.py:498-515): a
constant text, reading nothing from `self`. -/
def get_aspect_ratio_description (g : Generator) : String :=
  "\n📐 Выберите соотношение сторон для вашего изображения!\n\nЭто как рамка для картины: определяет форму изображения.\n- 9:16: Вертикальный формат, идеален для сторис и мобильных экранов 📱\n- 16:9: Горизонтальный, как видео на YouTube или киноэкран 🎥\n- 1:1: Квадрат, классика для аватарок и постов в соцсетях 🔲\n- 3:4 / 4:3: Портретный или альбомный, универсальный для фото 📸\n\nPixelPie AI подстроит генерацию под выбранный формат для лучшего результата! ✨\n"

/-- A concrete oracle on which every external step succeeds, used to
instantiate the theorems below on closed inputs. -/
def wEnv : GenEnv :=
  { httpGet := fun _ => { status := 200, contentType := "application/json", json := [("id", "f1")], text := "" }
    filesGet := fun _ => FileContent.bytes [1, 2]
    mimeOf := fun _ => "image/jpeg"
    pilOpen := fun b => Except.ok { raw := b }
    reencodeJpeg := fun i => 0 :: i.raw
    postFile := fun _ _ => { status := 201, json := [("url", "https://up/1")], text := "" }
    create := fun _ _ => Except.ok { id := "p1", status := "starting", output := "", error := none }
    getPred := fun _ => Except.ok { id := "p1", status := "succeeded", output := "https://out/img.jpg", error := none }
    now := "2026-01-01T00:00:00" }

/-- The job input submitted in the witness run below: the photoshop
prompt, the chosen ratio, and the re-uploaded URL as reference image. -/
def wInput : PredInput :=
  { prompt :=
      (match dlookup defaultStyles "photoshop" with
       | some sc => sc.prompt_template
       | none => "")
    aspect_ratio := "3:4"
    reference_tags := ["person"]
    reference_images := ["https://up/1"]
    output_resolution := "720p" }

/-- The event trace of the witness run below: download, re-upload of the
re-encoded bytes, one job submission, one poll. -/
def wTrace : List Event :=
  [Event.download "https://u", Event.upload [0, 1, 2] "processed.jpg",
   Event.create "runwayml/gen4-image" wInput, Event.poll "p1"]

/-- The result dictionary of the witness run below. -/
def wResult : RDict :=
  successDict "https://out/img.jpg" "photoshop" "🤍 Фотошоп" "2026-01-01T00:00:00" "p1"

/-! ## Theorems -/

/-- Inversion of a successful `download_image`: success pins down both
validation steps, the id used for `files.get` and the MIME check. -/
theorem download_image_ok_inv (resp : MetaResponse) (filesGet : String → FileContent)
    (mimeOf : Bytes → String) (b : Bytes)
    (h : download_image resp filesGet mimeOf = Except.ok b) :
    resp.status = 200 ∧ strStartsWith resp.contentType "application/json" = true ∧
    ∃ fid, dlookup resp.json "id" = some fid ∧ filesGet fid = FileContent.bytes b ∧
      strStartsWith (mimeOf b) "image/" = true := by
  unfold download_image at h
  repeat' split at h
  all_goals cases h
  all_goals simp_all

/-- Claim C3: `upload_image_to_replicate` hands back the `url` field of
the JSON body exactly when the HTTP status is 201 and the body has a
`url` key; on any other status, or a 201 body without `url`, it raises
instead. -/
theorem C3_upload_url_iff (resp : UploadResponse) :
    (∀ u, upload_image_to_replicate resp = Except.ok u ↔
      (resp.status = 201 ∧ dlookup resp.json "url" = some u)) ∧
    ((resp.status ≠ 201 ∨ dlookup resp.json "url" = none) →
      ∃ e, upload_image_to_replicate resp = Except.error e) := by
  unfold upload_image_to_replicate
  constructor
  · intro u
    split
    · rename_i h201
      cases hu : dlookup resp.json "url" with
      | none => simp [h201]
      | some v => simp [h201]
    · rename_i h201
      simp [h201]
  · intro h
    split
    · rename_i h201
      rcases h with h | h
      · exact absurd h201 h
      · rw [h]
        exact ⟨_, rfl⟩
    · exact ⟨_, rfl⟩

/-- Closed instance of C3: a 201 response with a `url` field yields that
url, a 404 response raises. -/
theorem C3_upload_url_iff_witness :
    upload_image_to_replicate { status := 201, json := [("url", "https://up/1")], text := "" } =
      Except.ok "https://up/1" ∧
    (∃ e, upload_image_to_replicate { status := 404, json := [], text := "nf" } = Except.error e) :=
  ⟨((C3_upload_url_iff _).1 _).2 ⟨rfl, rfl⟩,
   (C3_upload_url_iff _).2 (Or.inl (by decide))⟩

/-- Claim C4: `download_image` resolves a metadata URL in two steps — the
GET must answer HTTP 200 with a JSON Content-Type and an `id` in the body,
and the bytes are then obtained from `client.files.get` on that id; if the
status is not 200, the Content-Type is not JSON, or `id` is absent, it
raises instead of returning bytes. -/
theorem C4_download_two_steps (resp : MetaResponse) (filesGet : String → FileContent)
    (mimeOf : Bytes → String) :
    (∀ b, download_image resp filesGet mimeOf = Except.ok b →
      resp.status = 200 ∧ strStartsWith resp.contentType "application/json" = true ∧
      ∃ fid, dlookup resp.json "id" = some fid ∧ filesGet fid = FileContent.bytes b) ∧
    ((resp.status ≠ 200 ∨ strStartsWith resp.contentType "application/json" = false ∨
        dlookup resp.json "id" = none) →
      ∃ e, download_image resp filesGet mimeOf = Except.error e) := by
  constructor
  · intro b h
    obtain ⟨h200, hct, fid, hid, hfc, _⟩ := download_image_ok_inv resp filesGet mimeOf b h
    exact ⟨h200, hct, fid, hid, hfc⟩
  · intro h
    cases hdl : download_image resp filesGet mimeOf with
    | error e => exact ⟨e, rfl⟩
    | ok b =>
      obtain ⟨h200, hct, fid, hid, _, _⟩ := download_image_ok_inv resp filesGet mimeOf b hdl
      rcases h with h | h | h
      · exact absurd h200 h
      · rw [hct] at h
        cases h
      · rw [h] at hid
        cases hid

/-- Closed instance of C4: a well-formed metadata response resolves to the
bytes of `files.get`, a 404 metadata response raises. -/
theorem C4_download_two_steps_witness :
    ((200 : Nat) = 200 ∧ strStartsWith "application/json" "application/json" = true ∧
      ∃ fid, dlookup [("id", "f1")] "id" = some fid ∧ wEnv.filesGet fid = FileContent.bytes [1, 2]) ∧
    (∃ e, download_image { status := 404, contentType := "", json := [], text := "nf" }
        wEnv.filesGet wEnv.mimeOf = Except.error e) :=
  ⟨(C4_download_two_steps { status := 200, contentType := "application/json", json := [("id", "f1")], text := "" }
      wEnv.filesGet wEnv.mimeOf).1 [1, 2] (by rfl),
   (C4_download_two_steps { status := 404, contentType := "", json := [], text := "nf" }
      wEnv.filesGet wEnv.mimeOf).2 (Or.inl (by decide))⟩

/-- Claim C5: whatever `download_image` returns normally is a bytes value
whose detected MIME type starts with `image/`; fetched content that is
not a bytes instance, or whose MIME type does not start with `image/`,
makes it raise. -/
theorem C5_download_image_is_image (resp : MetaResponse) (filesGet : String → FileContent)
    (mimeOf : Bytes → String) :
    (∀ b, download_image resp filesGet mimeOf = Except.ok b →
      strStartsWith (mimeOf b) "image/" = true) ∧
    (∀ fid, dlookup resp.json "id" = some fid →
      (∀ t, filesGet fid = FileContent.other t →
        ∃ e, download_image resp filesGet mimeOf = Except.error e) ∧
      (∀ b, filesGet fid = FileContent.bytes b →
        strStartsWith (mimeOf b) "image/" = false →
        ∃ e, download_image resp filesGet mimeOf = Except.error e)) := by
  constructor
  · intro b h
    obtain ⟨_, _, fid, _, _, hmime⟩ := download_image_ok_inv resp filesGet mimeOf b h
    exact hmime
  · intro fid hid
    constructor
    · intro t hfc
      cases hdl : download_image resp filesGet mimeOf with
      | error e => exact ⟨e, rfl⟩
      | ok b =>
        obtain ⟨_, _, fid2, hid2, hfc2, _⟩ := download_image_ok_inv resp filesGet mimeOf b hdl
        rw [hid] at hid2
        cases hid2
        rw [hfc] at hfc2
        cases hfc2
    · intro b hfc hmime
      cases hdl : download_image resp filesGet mimeOf with
      | error e => exact ⟨e, rfl⟩
      | ok b2 =>
        obtain ⟨_, _, fid2, hid2, hfc2, hmime2⟩ := download_image_ok_inv resp filesGet mimeOf b2 hdl
        rw [hid] at hid2
        cases hid2
        rw [hfc] at hfc2
        cases hfc2
        rw [hmime] at hmime2
        cases hmime2

/-- Closed instance of C5: the successfully downloaded bytes have an
`image/` MIME type, and a `files.get` returning a non-bytes value makes
`download_image` raise. -/
theorem C5_download_image_is_image_witness :
    strStartsWith (wEnv.mimeOf [1, 2]) "image/" = true ∧
    (∃ e, download_image { status := 200, contentType := "application/json", json := [("id", "f1")], text := "" }
        (fun _ => FileContent.other "str") wEnv.mimeOf = Except.error e) :=
  ⟨(C5_download_image_is_image { status := 200, contentType := "application/json", json := [("id", "f1")], text := "" }
      wEnv.filesGet wEnv.mimeOf).1 [1, 2] (by rfl),
   ((C5_download_image_is_image { status := 200, contentType := "application/json", json := [("id", "f1")], text := "" }
      (fun _ => FileContent.other "str") wEnv.mimeOf).2 "f1" (by rfl)).1 "str" rfl⟩

/-- The failure dictionary of `generate_image` carries `success = False`. -/
theorem dlookup_failDict_success (e s n : String) :
    dlookup (failDict e s n) "success" = some (RVal.bool false) := rfl

/-- The success dictionary of `generate_image` carries `success = True`. -/
theorem dlookup_successDict_success (u s sn n pid : String) :
    dlookup (successDict u s sn n pid) "success" = some (RVal.bool true) := rfl

/-- Every event recorded by the polling loop is a poll. -/
theorem pollLoop_events_poll (getPred : Nat → Except String Prediction) (fuel : Nat) :
    ∀ (k : Nat) (p : Prediction) (res : Except String Prediction) (tr : List Event),
      pollLoop getPred fuel k p = some (res, tr) → ∀ ev ∈ tr, ∃ i, ev = Event.poll i := by
  induction fuel with
  | zero =>
    intro k p res tr h ev hev
    unfold pollLoop at h
    split at h
    · cases h
      cases hev
    · cases h
  | succ fuel ih =>
    intro k p res tr h ev hev
    unfold pollLoop at h
    split at h
    · cases h
      cases hev
    · cases hg : getPred k with
      | error e =>
        rw [hg] at h
        have h2 : some ((Except.error e : Except String Prediction), [Event.poll p.id]) = some (res, tr) := h
        cases h2
        cases hev with
        | head => exact ⟨p.id, rfl⟩
        | tail _ hev => cases hev
      | ok p2 =>
        rw [hg] at h
        have h3 : (match pollLoop getPred fuel (k + 1) p2 with
            | none => none
            | some (r2, t2) => some (r2, Event.poll p.id :: t2)) = some (res, tr) := h
        cases hrec : pollLoop getPred fuel (k + 1) p2 with
        | none =>
          rw [hrec] at h3
          cases h3
        | some rt =>
          obtain ⟨res2, tr2⟩ := rt
          rw [hrec] at h3
          have h2 : some (res2, Event.poll p.id :: tr2) = some (res, tr) := h3
          cases h2
          cases hev with
          | head => exact ⟨p.id, rfl⟩
          | tail _ hev => exact ih (k + 1) p2 res tr2 hrec ev hev

/-- Counterexample to claim C2 as stated: a prediction whose status is
`"canceled"` — neither `"succeeded"` nor `"failed"` — already makes the
polling loop stop, with no further fetch. -/
theorem C2_counterexample :
    pollLoop (fun _ => Except.ok { id := "p1", status := "succeeded", output := "", error := none }) 5 0
        { id := "p1", status := "canceled", output := "", error := none } =
      some (Except.ok { id := "p1", status := "canceled", output := "", error := none }, []) ∧
    ("canceled" : String) ≠ "succeeded" ∧ ("canceled" : String) ≠ "failed" :=
  ⟨rfl, by decide, by decide⟩

/-- Claim C2 (amended): the polling loop re-fetches the prediction every
iteration and exits only on a terminal status, but the terminal statuses
are exactly `"succeeded"`, `"failed"` and `"canceled"` — while the status
is anything else, polling continues. -/
theorem C2_poll_until_terminal (getPred : Nat → Except String Prediction) (fuel : Nat) :
    ∀ (k : Nat) (p : Prediction) (res : Except String Prediction) (tr : List Event),
      pollLoop getPred fuel k p = some (res, tr) →
      (∀ q, res = Except.ok q → q.status ∈ terminalStatuses) ∧
      (p.status ∉ terminalStatuses → ∃ tr2, tr = Event.poll p.id :: tr2) := by
  induction fuel with
  | zero =>
    intro k p res tr h
    unfold pollLoop at h
    split at h
    · rename_i hterm
      cases h
      refine ⟨fun q hq => ?_, fun hn => absurd hterm hn⟩
      cases hq
      exact hterm
    · cases h
  | succ fuel ih =>
    intro k p res tr h
    unfold pollLoop at h
    split at h
    · rename_i hterm
      cases h
      refine ⟨fun q hq => ?_, fun hn => absurd hterm hn⟩
      cases hq
      exact hterm
    · cases hg : getPred k with
      | error e =>
        rw [hg] at h
        have h2 : some ((Except.error e : Except String Prediction), [Event.poll p.id]) = some (res, tr) := h
        cases h2
        exact ⟨fun q hq => Except.noConfusion hq, fun _ => ⟨[], rfl⟩⟩
      | ok p2 =>
        rw [hg] at h
        have h3 : (match pollLoop getPred fuel (k + 1) p2 with
            | none => none
            | some (r2, t2) => some (r2, Event.poll p.id :: t2)) = some (res, tr) := h
        cases hrec : pollLoop getPred fuel (k + 1) p2 with
        | none =>
          rw [hrec] at h3
          cases h3
        | some rt =>
          obtain ⟨res2, tr2⟩ := rt
          rw [hrec] at h3
          have h2 : some (res2, Event.poll p.id :: tr2) = some (res, tr) := h3
          cases h2
          exact ⟨(ih (k + 1) p2 res tr2 hrec).1, fun _ => ⟨tr2, rfl⟩⟩

/-- Closed instance of the amended C2: starting from a non-terminal
status, one fetch is recorded and the loop ends on a terminal status. -/
theorem C2_poll_until_terminal_witness :
    (∀ q, (Except.ok { id := "p1", status := "succeeded", output := "https://out/img.jpg", error := none } :
        Except String Prediction) = Except.ok q → q.status ∈ terminalStatuses) ∧
    (({ id := "p1", status := "starting", output := "", error := none } : Prediction).status ∉ terminalStatuses →
      ∃ tr2, [Event.poll "p1"] = Event.poll ({ id := "p1", status := "starting", output := "", error := none } : Prediction).id :: tr2) :=
  C2_poll_until_terminal wEnv.getPred 2 0
    { id := "p1", status := "starting", output := "", error := none }
    (Except.ok { id := "p1", status := "succeeded", output := "https://out/img.jpg", error := none })
    [Event.poll "p1"] (by rfl)

/-- Every dictionary `generate_image` returns is either the failure
dictionary or the success dictionary, both built with the requested style
and the clock's timestamp. -/
theorem generate_image_result_shape (g : Generator) (env : GenEnv) (fuel : Nat)
    (image_url style : String) (user_id : Int) (aspect_ratio resolution : String)
    (r : RDict) (tr : List Event)
    (h : generate_image g env fuel image_url style user_id aspect_ratio resolution = some (r, tr)) :
    (∃ e, r = failDict e style env.now) ∨
    ∃ u sn pid, r = successDict u style sn env.now pid := by
  unfold generate_image at h
  cases hst : dlookup g.styles style with
  | none =>
    rw [hst] at h
    simp only [] at h
    cases h
    exact Or.inl ⟨_, rfl⟩
  | some sc =>
    rw [hst] at h
    simp only [] at h
    split at h
    · cases h
      exact Or.inl ⟨_, rfl⟩
    · split at h
      · cases h
        exact Or.inl ⟨_, rfl⟩
      · cases hdl : download_image (env.httpGet image_url) env.filesGet env.mimeOf with
        | error e =>
          rw [hdl] at h
          simp only [] at h
          cases h
          exact Or.inl ⟨_, rfl⟩
        | ok image_bytes =>
          rw [hdl] at h
          simp only [] at h
          cases hpil : env.pilOpen image_bytes with
          | error pe =>
            rw [hpil] at h
            simp only [] at h
            cases h
            exact Or.inl ⟨_, rfl⟩
          | ok img =>
            rw [hpil] at h
            simp only [] at h
            cases hup : upload_image_to_replicate (env.postFile (env.reencodeJpeg img) "processed.jpg") with
            | error e =>
              rw [hup] at h
              simp only [] at h
              cases h
              exact Or.inl ⟨_, rfl⟩
            | ok processed_url =>
              rw [hup] at h
              simp only [] at h
              cases hcr : env.create sc.model
                  { prompt := sc.prompt_template
                    aspect_ratio := normalizeAspect g aspect_ratio
                    reference_tags := ["person"]
                    reference_images := [processed_url]
                    output_resolution := resolution } with
              | error e =>
                rw [hcr] at h
                simp only [] at h
                cases h
                exact Or.inl ⟨_, rfl⟩
              | ok prediction =>
                rw [hcr] at h
                simp only [] at h
                cases hpl : pollLoop env.getPred fuel 0 prediction with
                | none =>
                  rw [hpl] at h
                  simp only [] at h
                  cases h
                | some prt =>
                  obtain ⟨pres, pollTr⟩ := prt
                  rw [hpl] at h
                  simp only [] at h
                  cases pres with
                  | error e =>
                    simp only [] at h
                    cases h
                    exact Or.inl ⟨_, rfl⟩
                  | ok p =>
                    simp only [] at h
                    cases hsucc : p.status == "succeeded" with
                    | true =>
                      rw [hsucc] at h
                      simp only [if_pos] at h
                      cases h
                      exact Or.inr ⟨_, _, _, rfl⟩
                    | false =>
                      rw [hsucc] at h
                      simp only [Bool.false_eq_true, if_neg, not_false_eq_true] at h
                      cases h
                      exact Or.inl ⟨_, rfl⟩

/-- When the style, the normalized aspect ratio or the resolution is not
in the corresponding configuration table, `generate_image` fails before
any I/O: empty trace, so no download, no upload, no job. -/
theorem generate_image_early_fail (g : Generator) (env : GenEnv) (fuel : Nat)
    (image_url style : String) (user_id : Int) (aspect_ratio resolution : String)
    (h : dlookup g.styles style = none ∨
         dlookup g.aspect_ratios (normalizeAspect g aspect_ratio) = none ∨
         dlookup g.resolutions resolution = none) :
    ∃ r, generate_image g env fuel image_url style user_id aspect_ratio resolution = some (r, []) ∧
      dlookup r "success" = some (RVal.bool false) := by
  unfold generate_image
  cases hst : dlookup g.styles style with
  | none => exact ⟨_, rfl, dlookup_failDict_success _ _ _⟩
  | some sc =>
    simp only []
    rcases h with h | h | h
    · rw [h] at hst
      cases hst
    · simp only [h, Option.isNone_none, if_true]
      exact ⟨_, rfl, dlookup_failDict_success _ _ _⟩
    · by_cases hra : (dlookup g.aspect_ratios (normalizeAspect g aspect_ratio)).isNone = true
      · simp only [hra, if_true]
        exact ⟨_, rfl, dlookup_failDict_success _ _ _⟩
      · refine ⟨failDict ("Неподдерживаемое разрешение: " ++ resolution) style env.now, ?_,
          dlookup_failDict_success _ _ _⟩
        rw [if_neg hra]
        simp [h]

/-- Claim C6: `generate_image` normalizes shorthand aspect ratios through
the fixed map 9→9:16, 16→16:9, 4→4:3, 3→3:4, 1→1:1; the supported ratios
are exactly 9:16, 4:3, 3:4, 1:1, 16:9; and an argument whose normalized
form is not among them makes the call return a failure result with no
I/O, in particular without submitting a job. -/
theorem C6_aspect_ratio_normalization (key : String) (env : GenEnv) (fuel : Nat)
    (image_url style : String) (user_id : Int) (aspect_ratio resolution : String)
    (h : dlookup (Generator.init key).aspect_ratios
        (normalizeAspect (Generator.init key) aspect_ratio) = none) :
    (normalizeAspect (Generator.init key) "9" = "9:16" ∧
     normalizeAspect (Generator.init key) "16" = "16:9" ∧
     normalizeAspect (Generator.init key) "4" = "4:3" ∧
     normalizeAspect (Generator.init key) "3" = "3:4" ∧
     normalizeAspect (Generator.init key) "1" = "1:1" ∧
     (Generator.init key).aspect_ratios.map Prod.fst = ["9:16", "4:3", "3:4", "1:1", "16:9"]) ∧
    ∃ r, generate_image (Generator.init key) env fuel image_url style user_id aspect_ratio resolution =
        some (r, []) ∧ dlookup r "success" = some (RVal.bool false) :=
  ⟨⟨rfl, rfl, rfl, rfl, rfl, rfl⟩,
   generate_image_early_fail (Generator.init key) env fuel image_url style user_id aspect_ratio
     resolution (Or.inr (Or.inl h))⟩

/-- Closed instance of C6: the normalization map on the five shorthands,
and the unsupported ratio `"7:5"` yields a failure with empty trace. -/
theorem C6_aspect_ratio_normalization_witness :
    (normalizeAspect (Generator.init "k") "9" = "9:16" ∧
     normalizeAspect (Generator.init "k") "16" = "16:9" ∧
     normalizeAspect (Generator.init "k") "4" = "4:3" ∧
     normalizeAspect (Generator.init "k") "3" = "3:4" ∧
     normalizeAspect (Generator.init "k") "1" = "1:1" ∧
     (Generator.init "k").aspect_ratios.map Prod.fst = ["9:16", "4:3", "3:4", "1:1", "16:9"]) ∧
    ∃ r, generate_image (Generator.init "k") wEnv 2 "https://u" "photoshop" 7 "7:5" "720p" =
        some (r, []) ∧ dlookup r "success" = some (RVal.bool false) :=
  C6_aspect_ratio_normalization "k" wEnv 2 "https://u" "photoshop" 7 "7:5" "720p" (by rfl)

/-- Claim C7: on every terminating run `generate_image` returns a
dictionary rather than propagating an exception: `success` is always a
boolean, and a failing run's dictionary carries an `error` string, the
requested `style` and a `timestamp`. -/
theorem C7_always_dict_with_error_shape (g : Generator) (env : GenEnv) (fuel : Nat)
    (image_url style : String) (user_id : Int) (aspect_ratio resolution : String)
    (r : RDict) (tr : List Event)
    (h : generate_image g env fuel image_url style user_id aspect_ratio resolution = some (r, tr)) :
    (∃ b, dlookup r "success" = some (RVal.bool b)) ∧
    (dlookup r "success" = some (RVal.bool false) →
      (∃ e, dlookup r "error" = some (RVal.str e)) ∧
      dlookup r "style" = some (RVal.str style) ∧
      dlookup r "timestamp" = some (RVal.str env.now)) := by
  rcases generate_image_result_shape g env fuel image_url style user_id aspect_ratio resolution
      r tr h with ⟨e, rfl⟩ | ⟨u, sn, pid, rfl⟩
  · exact ⟨⟨false, rfl⟩, fun _ => ⟨⟨e, rfl⟩, rfl, rfl⟩⟩
  · refine ⟨⟨true, rfl⟩, fun hf => ?_⟩
    rw [dlookup_successDict_success] at hf
    exact absurd hf (by simp)

/-- Closed instance of C7: a run with an unknown style returns the failure
dictionary with its `error`, `style` and `timestamp` fields. -/
theorem C7_always_dict_with_error_shape_witness :
    (∃ b, dlookup (failDict "Неизвестный стиль: nope" "nope" "2026-01-01T00:00:00") "success" =
        some (RVal.bool b)) ∧
    (dlookup (failDict "Неизвестный стиль: nope" "nope" "2026-01-01T00:00:00") "success" =
        some (RVal.bool false) →
      (∃ e, dlookup (failDict "Неизвестный стиль: nope" "nope" "2026-01-01T00:00:00") "error" =
          some (RVal.str e)) ∧
      dlookup (failDict "Неизвестный стиль: nope" "nope" "2026-01-01T00:00:00") "style" =
          some (RVal.str "nope") ∧
      dlookup (failDict "Неизвестный стиль: nope" "nope" "2026-01-01T00:00:00") "timestamp" =
          some (RVal.str "2026-01-01T00:00:00")) :=
  C7_always_dict_with_error_shape (Generator.init "k") wEnv 2 "https://u" "nope" 7 "3:4" "720p"
    (failDict "Неизвестный стиль: nope" "nope" "2026-01-01T00:00:00") [] (by rfl)

/-- Claim C10: `"720p"` is the only configured resolution, and any other
resolution argument makes `generate_image` return a failure dictionary
with an empty trace — no download, no upload, no job submission. -/
theorem C10_resolution_only_720p (key : String) (env : GenEnv) (fuel : Nat)
    (image_url style : String) (user_id : Int) (aspect_ratio resolution : String)
    (h : resolution ≠ "720p") :
    (Generator.init key).resolutions = [("720p", "720p")] ∧
    ∃ r, generate_image (Generator.init key) env fuel image_url style user_id aspect_ratio resolution =
        some (r, []) ∧ dlookup r "success" = some (RVal.bool false) := by
  refine ⟨rfl, generate_image_early_fail (Generator.init key) env fuel image_url style user_id
    aspect_ratio resolution (Or.inr (Or.inr ?_))⟩
  have hb : (("720p" : String) == resolution) = false := beq_eq_false_iff_ne.mpr (Ne.symm h)
  simp [Generator.init, dlookup, hb]

/-- Closed instance of C10: resolution `"1080p"` is rejected with an empty
trace. -/
theorem C10_resolution_only_720p_witness :
    (Generator.init "k").resolutions = [("720p", "720p")] ∧
    ∃ r, generate_image (Generator.init "k") wEnv 2 "https://u" "photoshop" 7 "3:4" "1080p" =
        some (r, []) ∧ dlookup r "success" = some (RVal.bool false) :=
  C10_resolution_only_720p "k" wEnv 2 "https://u" "photoshop" 7 "3:4" "1080p" (by decide)

/-- A trace made of polls contains no job submission. -/
theorem countP_create_polls (tr : List Event) (h : ∀ ev ∈ tr, ∃ i, ev = Event.poll i) :
    List.countP isCreateEvent tr = 0 := by
  rw [List.countP_eq_zero]
  intro ev hev
  obtain ⟨i, hi⟩ := h ev hev
  subst hi
  simp [isCreateEvent]

/-- Claim C1: every successful `generate_image` run validates the style
key and the normalized aspect ratio, downloads the source bytes, opens
and re-encodes them (`convert('RGB')` + JPEG quality 95, oracle
`reencodeJpeg`), re-uploads exactly the re-encoded bytes, submits exactly
one generation job whose input carries the style's prompt template, the
chosen aspect ratio and the re-uploaded URL as the reference image, and
then polls that job until its terminal status `"succeeded"` — in exactly
this order, as the event trace records. -/
theorem C1_success_performs_steps_in_order (g : Generator) (env : GenEnv) (fuel : Nat)
    (image_url style : String) (user_id : Int) (aspect_ratio resolution : String)
    (r : RDict) (tr : List Event)
    (h : generate_image g env fuel image_url style user_id aspect_ratio resolution = some (r, tr))
    (hs : dlookup r "success" = some (RVal.bool true)) :
    ∃ style_config image_bytes img processed_url prediction p pollTr,
      dlookup g.styles style = some style_config ∧
      (dlookup g.aspect_ratios (normalizeAspect g aspect_ratio)).isSome = true ∧
      download_image (env.httpGet image_url) env.filesGet env.mimeOf = Except.ok image_bytes ∧
      env.pilOpen image_bytes = Except.ok img ∧
      upload_image_to_replicate (env.postFile (env.reencodeJpeg img) "processed.jpg") =
        Except.ok processed_url ∧
      env.create style_config.model
        { prompt := style_config.prompt_template
          aspect_ratio := normalizeAspect g aspect_ratio
          reference_tags := ["person"]
          reference_images := [processed_url]
          output_resolution := resolution } = Except.ok prediction ∧
      pollLoop env.getPred fuel 0 prediction = some (Except.ok p, pollTr) ∧
      p.status = "succeeded" ∧
      tr = Event.download image_url :: Event.upload (env.reencodeJpeg img) "processed.jpg" ::
        Event.create style_config.model
          { prompt := style_config.prompt_template
            aspect_ratio := normalizeAspect g aspect_ratio
            reference_tags := ["person"]
            reference_images := [processed_url]
            output_resolution := resolution } :: pollTr ∧
      (∀ ev ∈ pollTr, ∃ i, ev = Event.poll i) ∧
      List.countP isCreateEvent tr = 1 := by
  unfold generate_image at h
  cases hst : dlookup g.styles style with
  | none =>
    rw [hst] at h
    simp only [] at h
    cases h
    rw [dlookup_failDict_success] at hs
    exact absurd hs (by simp)
  | some sc =>
    rw [hst] at h
    simp only [] at h
    split at h
    · cases h
      rw [dlookup_failDict_success] at hs
      exact absurd hs (by simp)
    · rename_i hra
      split at h
      · cases h
        rw [dlookup_failDict_success] at hs
        exact absurd hs (by simp)
      · cases hdl : download_image (env.httpGet image_url) env.filesGet env.mimeOf with
        | error e =>
          rw [hdl] at h
          simp only [] at h
          cases h
          rw [dlookup_failDict_success] at hs
          exact absurd hs (by simp)
        | ok image_bytes =>
          rw [hdl] at h
          simp only [] at h
          cases hpil : env.pilOpen image_bytes with
          | error pe =>
            rw [hpil] at h
            simp only [] at h
            cases h
            rw [dlookup_failDict_success] at hs
            exact absurd hs (by simp)
          | ok img =>
            rw [hpil] at h
            simp only [] at h
            cases hup : upload_image_to_replicate (env.postFile (env.reencodeJpeg img) "processed.jpg") with
            | error e =>
              rw [hup] at h
              simp only [] at h
              cases h
              rw [dlookup_failDict_success] at hs
              exact absurd hs (by simp)
            | ok processed_url =>
              rw [hup] at h
              simp only [] at h
              cases hcr : env.create sc.model
                  { prompt := sc.prompt_template
                    aspect_ratio := normalizeAspect g aspect_ratio
                    reference_tags := ["person"]
                    reference_images := [processed_url]
                    output_resolution := resolution } with
              | error e =>
                rw [hcr] at h
                simp only [] at h
                cases h
                rw [dlookup_failDict_success] at hs
                exact absurd hs (by simp)
              | ok prediction =>
                rw [hcr] at h
                simp only [] at h
                cases hpl : pollLoop env.getPred fuel 0 prediction with
                | none =>
                  rw [hpl] at h
                  simp only [] at h
                  cases h
                | some prt =>
                  obtain ⟨pres, pollTr⟩ := prt
                  rw [hpl] at h
                  simp only [] at h
                  cases pres with
                  | error e =>
                    simp only [] at h
                    cases h
                    rw [dlookup_failDict_success] at hs
                    exact absurd hs (by simp)
                  | ok p =>
                    simp only [] at h
                    cases hsucc : p.status == "succeeded" with
                    | true =>
                      rw [hsucc] at h
                      simp only [if_pos] at h
                      cases h
                      have hpoll := pollLoop_events_poll env.getPred fuel 0 prediction
                        (Except.ok p) pollTr hpl
                      refine ⟨sc, image_bytes, img, processed_url, prediction, p, pollTr,
                        rfl, ?_, rfl, hpil, hup, hcr, hpl, eq_of_beq hsucc, rfl, hpoll, ?_⟩
                      · cases ho : dlookup g.aspect_ratios (normalizeAspect g aspect_ratio) with
                        | none =>
                          rw [ho] at hra
                          exact absurd rfl hra
                        | some v => rfl
                      · have h0 := countP_create_polls pollTr hpoll
                        simp [List.countP_append, List.countP_cons, isCreateEvent, h0]
                    | false =>
                      rw [hsucc] at h
                      simp only [Bool.false_eq_true, if_neg, not_false_eq_true] at h
                      cases h
                      rw [dlookup_failDict_success] at hs
                      exact absurd hs (by simp)

/-- Closed instance of C1: a fully successful concrete run, whose trace is
download, upload of the re-encoded bytes, one job submission, one poll. -/
theorem C1_success_performs_steps_in_order_witness :
    ∃ style_config image_bytes img processed_url prediction p pollTr,
      dlookup (Generator.init "k").styles "photoshop" = some style_config ∧
      (dlookup (Generator.init "k").aspect_ratios
        (normalizeAspect (Generator.init "k") "3:4")).isSome = true ∧
      download_image (wEnv.httpGet "https://u") wEnv.filesGet wEnv.mimeOf = Except.ok image_bytes ∧
      wEnv.pilOpen image_bytes = Except.ok img ∧
      upload_image_to_replicate (wEnv.postFile (wEnv.reencodeJpeg img) "processed.jpg") =
        Except.ok processed_url ∧
      wEnv.create style_config.model
        { prompt := style_config.prompt_template
          aspect_ratio := normalizeAspect (Generator.init "k") "3:4"
          reference_tags := ["person"]
          reference_images := [processed_url]
          output_resolution := "720p" } = Except.ok prediction ∧
      pollLoop wEnv.getPred 2 0 prediction = some (Except.ok p, pollTr) ∧
      p.status = "succeeded" ∧
      wTrace = Event.download "https://u" ::
        Event.upload (wEnv.reencodeJpeg img) "processed.jpg" ::
        Event.create style_config.model
          { prompt := style_config.prompt_template
            aspect_ratio := normalizeAspect (Generator.init "k") "3:4"
            reference_tags := ["person"]
            reference_images := [processed_url]
            output_resolution := "720p" } :: pollTr ∧
      (∀ ev ∈ pollTr, ∃ i, ev = Event.poll i) ∧
      List.countP isCreateEvent wTrace = 1 :=
  C1_success_performs_steps_in_order (Generator.init "k") wEnv 2 "https://u" "photoshop" 7
    "3:4" "720p" wResult wTrace (by rfl) (by rfl)

/-- Claim C8: the presentation helpers are pure.  The source methods
mutate nothing and perform no I/O, so they are embedded as plain functions
of the generator value; on top of that, this theorem states determinism
with respect to the configuration actually read: the style keyboard
depends only on `styles`, the ratio keyboard only on `aspect_ratios`, the
resolution keyboard only on `resolutions`, and the two description
helpers on no generator state at all. -/
theorem C8_presentation_helpers_pure :
    (∀ g g2 : Generator, g.styles = g2.styles →
      get_style_keyboard g = get_style_keyboard g2) ∧
    (∀ g g2 : Generator, ∀ sk : String, g.aspect_ratios = g2.aspect_ratios →
      get_aspect_ratio_keyboard g sk = get_aspect_ratio_keyboard g2 sk) ∧
    (∀ g g2 : Generator, ∀ sk ar : String, g.resolutions = g2.resolutions →
      get_resolution_keyboard g sk ar = get_resolution_keyboard g2 sk ar) ∧
    (∀ g g2 : Generator, ∀ s : String, get_style_description g s = get_style_description g2 s) ∧
    (∀ g g2 : Generator, get_aspect_ratio_description g = get_aspect_ratio_description g2) := by
  refine ⟨?_, ?_, ?_, ?_, ?_⟩
  · intro g g2 hgs
    unfold get_style_keyboard
    rw [hgs]
  · intro g g2 sk hgs
    unfold get_aspect_ratio_keyboard
    rw [hgs]
  · intro g g2 sk ar hgs
    unfold get_resolution_keyboard
    rw [hgs]
  · intro g g2 s
    rfl
  · intro g g2
    rfl

/-- Closed instance of C8: two generators that differ only in API key
produce identical keyboards and descriptions. -/
theorem C8_presentation_helpers_pure_witness :
    get_style_keyboard (Generator.init "a") = get_style_keyboard (Generator.init "b") ∧
    get_aspect_ratio_keyboard (Generator.init "a") "photoshop" =
      get_aspect_ratio_keyboard (Generator.init "b") "photoshop" ∧
    get_resolution_keyboard (Generator.init "a") "photoshop" "3:4" =
      get_resolution_keyboard (Generator.init "b") "photoshop" "3:4" ∧
    get_style_description (Generator.init "a") "art" = get_style_description (Generator.init "b") "art" ∧
    get_aspect_ratio_description (Generator.init "a") = get_aspect_ratio_description (Generator.init "b") :=
  ⟨C8_presentation_helpers_pure.1 (Generator.init "a") (Generator.init "b") rfl,
   C8_presentation_helpers_pure.2.1 (Generator.init "a") (Generator.init "b") "photoshop" rfl,
   C8_presentation_helpers_pure.2.2.1 (Generator.init "a") (Generator.init "b") "photoshop" "3:4" rfl,
   C8_presentation_helpers_pure.2.2.2.1 (Generator.init "a") (Generator.init "b") "art",
   C8_presentation_helpers_pure.2.2.2.2 (Generator.init "a") (Generator.init "b")⟩

/-- Invariant of the row-building fold shared by the keyboard helpers:
flushed rows never exceed the flush size, the pending row is strictly
shorter, and flushed-plus-pending is exactly the buttons folded so far. -/
theorem foldl_keyboardStep_spec (r : Nat) (hr : 1 ≤ r) (bs : List Button) :
    ∀ acc : List (List Button) × List Button,
      (∀ row ∈ acc.1, row.length ≤ r) → acc.2.length < r →
      (∀ row ∈ (bs.foldl (keyboardStep r) acc).1, row.length ≤ r) ∧
      (bs.foldl (keyboardStep r) acc).2.length < r ∧
      (bs.foldl (keyboardStep r) acc).1.flatten ++ (bs.foldl (keyboardStep r) acc).2 =
        acc.1.flatten ++ acc.2 ++ bs := by
  induction bs with
  | nil =>
    intro acc h1 h2
    exact ⟨h1, h2, by simp⟩
  | cons b bs ih =>
    intro acc h1 h2
    simp only [List.foldl_cons]
    by_cases hlen : (acc.2 ++ [b]).length = r
    · have hstep : keyboardStep r acc b = (acc.1 ++ [acc.2 ++ [b]], []) := by
        have hlen2 : acc.2.length + 1 = r := by simpa using hlen
        simp [keyboardStep, hlen2]
      rw [hstep]
      have hrows : ∀ row ∈ acc.1 ++ [acc.2 ++ [b]], row.length ≤ r := by
        intro row hrow
        rcases List.mem_append.mp hrow with hrow | hrow
        · exact h1 row hrow
        · rw [List.mem_singleton.mp hrow]
          exact Nat.le_of_eq hlen
      obtain ⟨g1, g2, g3⟩ := ih (acc.1 ++ [acc.2 ++ [b]], []) hrows (by simpa using hr)
      refine ⟨g1, g2, ?_⟩
      rw [g3]
      simp
    · have hstep : keyboardStep r acc b = (acc.1, acc.2 ++ [b]) := by
        have hlen2 : ¬acc.2.length + 1 = r := by simpa using hlen
        simp [keyboardStep, hlen2]
      rw [hstep]
      have hlt : (acc.2 ++ [b]).length < r := by
        have hl1 : (acc.2 ++ [b]).length = acc.2.length + 1 := by simp
        omega
      obtain ⟨g1, g2, g3⟩ := ih (acc.1, acc.2 ++ [b]) h1 hlt
      refine ⟨g1, g2, ?_⟩
      rw [g3]
      simp

/-- Layout of a keyboard assembled by `keyboardFinish` from the
row-building fold: the cancel row comes last and alone, earlier rows are
bounded by the flush size, and flattening the earlier rows recovers the
folded buttons in order. -/
theorem keyboardFinish_layout (r : Nat) (hr : 1 ≤ r) (bs : List Button) :
    (keyboardFinish (bs.foldl (keyboardStep r) ([], []))).getLast? = some [cancelButton] ∧
    (∀ row ∈ (keyboardFinish (bs.foldl (keyboardStep r) ([], []))).dropLast, row.length ≤ r) ∧
    (keyboardFinish (bs.foldl (keyboardStep r) ([], []))).dropLast.flatten = bs := by
  obtain ⟨g1, g2, g3⟩ := foldl_keyboardStep_spec r hr bs ([], []) (by simp) (by simpa using hr)
  simp only [List.flatten_nil, List.nil_append] at g3
  unfold keyboardFinish
  refine ⟨by simp [List.getLast?_concat], ?_, ?_⟩
  · intro row hrow
    rw [List.dropLast_concat] at hrow
    by_cases he : (bs.foldl (keyboardStep r) ([], [])).2.isEmpty
    · rw [if_pos he] at hrow
      exact g1 row hrow
    · rw [if_neg he] at hrow
      rcases List.mem_append.mp hrow with hrow | hrow
      · exact g1 row hrow
      · rw [List.mem_singleton.mp hrow]
        exact Nat.le_of_lt g2
  · rw [List.dropLast_concat]
    by_cases he : (bs.foldl (keyboardStep r) ([], [])).2.isEmpty
    · rw [if_pos he]
      have h2e : (bs.foldl (keyboardStep r) ([], [])).2 = [] := by
        simpa using he
      rw [h2e] at g3
      simpa using g3
    · rw [if_neg he, List.flatten_append]
      simpa using g3

/-- Claim C9: every keyboard ends with a final row holding exactly the
cancel button (`callback_data = "transform_cancel"`); earlier rows hold at
most 2 buttons in the style keyboard and at most 3 in the ratio keyboard;
and the earlier rows together list every configured style (respectively
every configured aspect ratio) exactly once, in order. -/
theorem C9_keyboard_layout (g : Generator) (sk ar : String) :
    ((get_style_keyboard g).getLast? = some [cancelButton] ∧
     (∀ row ∈ (get_style_keyboard g).dropLast, row.length ≤ 2) ∧
     (get_style_keyboard g).dropLast.flatten.map Button.callback_data =
       g.styles.map (fun p => "transform_style:" ++ p.1)) ∧
    ((get_aspect_ratio_keyboard g sk).getLast? = some [cancelButton] ∧
     (∀ row ∈ (get_aspect_ratio_keyboard g sk).dropLast, row.length ≤ 3) ∧
     (get_aspect_ratio_keyboard g sk).dropLast.flatten.map Button.callback_data =
       g.aspect_ratios.map (fun p => "transform_ratio:" ++ sk ++ ":" ++ p.1)) ∧
    (get_resolution_keyboard g sk ar).getLast? = some [cancelButton] := by
  have hsty : get_style_keyboard g =
      keyboardFinish ((g.styles.map (fun p =>
        ({ text := p.2.name, callback_data := "transform_style:" ++ p.1 } : Button))).foldl
        (keyboardStep 2) ([], [])) := by
    unfold get_style_keyboard
    rw [List.foldl_map]
  have hrat : get_aspect_ratio_keyboard g sk =
      keyboardFinish ((g.aspect_ratios.map (fun p =>
        ({ text := p.1, callback_data := "transform_ratio:" ++ sk ++ ":" ++ p.1 } : Button))).foldl
        (keyboardStep 3) ([], [])) := by
    unfold get_aspect_ratio_keyboard
    rw [List.foldl_map]
  obtain ⟨s1, s2, s3⟩ := keyboardFinish_layout 2 (by omega) (g.styles.map (fun p =>
    ({ text := p.2.name, callback_data := "transform_style:" ++ p.1 } : Button)))
  obtain ⟨r1, r2, r3⟩ := keyboardFinish_layout 3 (by omega) (g.aspect_ratios.map (fun p =>
    ({ text := p.1, callback_data := "transform_ratio:" ++ sk ++ ":" ++ p.1 } : Button)))
  refine ⟨⟨?_, ?_, ?_⟩, ⟨?_, ?_, ?_⟩, ?_⟩
  · rw [hsty]
    exact s1
  · rw [hsty]
    exact s2
  · rw [hsty, s3, List.map_map]
    rfl
  · rw [hrat]
    exact r1
  · rw [hrat]
    exact r2
  · rw [hrat, r3, List.map_map]
    rfl
  · unfold get_resolution_keyboard
    simp [List.getLast?_concat]

end PhotoTransform
